import Mathlib

/-!
Verification of the healthcare-provider enrichment script (`main.py`).

The script loads a spreadsheet of providers, and for each row resolves a
place identifier through up to three text queries against a places lookup
service, fetches place details (url, coordinates, photo references),
derives an image URL, and finally persists the enriched table to a
database and to spreadsheet files.

The embedding below models the network as explicit oracles:
a call that the Python `requests` layer (or JSON decoding) would abort with
an exception is represented by a `raised` outcome, and exception
propagation is represented with `Except`.  Pandas per-row mutation is
represented by building a new `Row` record with the fields assigned so far.
-/

namespace MapsData

/-- An input spreadsheet row (columns `name`, `address`, `city`, `province`, `id`). -/
structure InputRow where
  id : Int
  province : String
  city : String
  name : String
  address : String
deriving Repr, DecidableEq

/-- A working row of the dataframe after `main` adds the derived query column
`alamat_parameter` and the output columns `place_id`, `map_url`, `latitude`,
`longitude`, `image_url` (all initialised to the empty string). -/
structure Row where
  id : Int
  province : String
  city : String
  name : String
  address : String
  alamat_parameter : String
  place_id : String
  map_url : String
  latitude : String
  longitude : String
  image_url : String
deriving Repr, DecidableEq

/-- Column initialisation performed by `main` before the enrichment loop:
`alamat_parameter = name + ", " + address + ", " + city`, and the four output
columns plus `place_id` set to `""`. -/
def initRow (r : InputRow) : Row :=
  { id := r.id, province := r.province, city := r.city, name := r.name,
    address := r.address,
    alamat_parameter := r.name ++ ", " ++ r.address ++ ", " ++ r.city,
    place_id := "", map_url := "", latitude := "", longitude := "",
    image_url := "" }

/-- A candidate object of the text-query response: `place_id` and the
`types` array of category-label strings. -/
structure Candidate where
  place_id : String
  types : List String
deriving Repr, DecidableEq

/-- The fixed recognised set of category labels (`type_options` in
`check_type_in_response`). -/
def type_options : List String := ["health", "hospital", "pharmacy", "dentist"]

/-- Embeds `check_type_in_response`.  The Python source evaluates
`any(type_option in store_type for type_option in type_options)`; since the
call site passes the `types` JSON array of a candidate (a Python list),
`type_option in store_type` is list membership, i.e. element equality. -/
def check_type_in_response (store_type : List String) : Bool :=
  type_options.any (fun type_option => store_type.contains type_option)

/-- Outcome of one text-query lookup call (`requests.get` on the
find-place-from-text endpoint followed, on status 200, by `.json()` and the
`"candidates"` access):
* `raised msg` — the HTTP call itself raised (network error, timeout);
* `ok status payload` — an HTTP response with the given status code, whose
  candidate payload decodes to a list (`Except.ok`) or raises when parsed
  (`Except.error`, covering malformed JSON / missing `"candidates"`).
  The payload is only examined when `status = 200`. -/
inductive TextQueryOutcome where
  | raised (msg : String)
  | ok (status : Nat) (payload : Except String (List Candidate))
deriving Repr

/-- Embeds `get_place_api`: issues the text-query request for `value`.
(The `value is None` branch of the source is unreachable from the resolver,
whose three retry branches always assign a string, so it is not modelled.) -/
def get_place_api (textApi : String → TextQueryOutcome) (value : String) :
    TextQueryOutcome :=
  textApi value

/-- The query text the resolver uses at a given `retry_count`
(the `if retry_count == 0 / 1 / 2` ladder). -/
def queryFor (row_value : Row) (retry_count : Nat) : String :=
  if retry_count = 0 then row_value.alamat_parameter
  else if retry_count = 1 then row_value.name ++ ", " ++ row_value.city
  else row_value.address

/-- The loop
`for i in range(len(candidates)): if check_type_in_response(candidates[i]["types"]): place_id = candidates[i]["place_id"]; break` —
first candidate in list order whose types satisfy the classifier. -/
def firstQualifying : List Candidate → Option String
  | [] => none
  | candidate :: rest =>
    if check_type_in_response candidate.types then some candidate.place_id
    else firstQualifying rest

/-- The `while place_id is None and retry_count < max_retries` loop of
`get_place_id_from_text_query`, with `remaining = max_retries - retry_count`
as structural fuel.  Returns the resolver result (`Except.error` when an
exception escapes the loop body) together with the list of query texts of
the lookup calls actually issued, in order. -/
def resolveAux (textApi : String → TextQueryOutcome) (row_value : Row) :
    Nat → Nat → Except String (Option String) × List String
  | _, 0 => (Except.ok none, [])
  | retry_count, remaining + 1 =>
    let value := queryFor row_value retry_count
    match get_place_api textApi value with
    | TextQueryOutcome.raised msg => (Except.error msg, [value])
    | TextQueryOutcome.ok status payload =>
      if status = 200 then
        match payload with
        | Except.error msg => (Except.error msg, [value])
        | Except.ok candidates =>
          match firstQualifying candidates with
          | some place_id => (Except.ok (some place_id), [value])
          | none =>
            let rest := resolveAux textApi row_value (retry_count + 1) remaining
            (rest.1, value :: rest.2)
      else
        let rest := resolveAux textApi row_value (retry_count + 1) remaining
        (rest.1, value :: rest.2)

/-- Embeds `get_place_id_from_text_query` (`max_retries = 3`,
`retry_count = 0`). -/
def get_place_id_from_text_query (textApi : String → TextQueryOutcome)
    (row_value : Row) : Except String (Option String) × List String :=
  resolveAux textApi row_value 0 3

/-- The three query texts of the retry ladder, in attempt order. -/
def resolverQueries (row_value : Row) : List String :=
  [queryFor row_value 0, queryFor row_value 1, queryFor row_value 2]

/-- Python `str(x)` applied to the resolver result: the identifier itself on
success, the literal string `"None"` when unresolved. -/
def pyStr : Option String → String
  | none => "None"
  | some place_id => place_id

/-- The `geometry.location` object of a place-detail response; a missing
`lat`/`lng` key is `none` (accessing it raises a KeyError). -/
structure LocationJson where
  lat : Option String
  lng : Option String
deriving Repr, DecidableEq

/-- The `geometry` object of a place-detail response. -/
structure GeometryJson where
  location : Option LocationJson
deriving Repr, DecidableEq

/-- The `result` object of a place-detail response.  `photos` is the ordered
list of `photo_reference` strings; `none` when the `"photos"` key is absent. -/
structure ResultJson where
  url : Option String
  geometry : Option GeometryJson
  photos : Option (List String)
deriving Repr, DecidableEq

/-- A decoded place-detail response body; `result = none` when the
`"result"` key is absent. -/
structure DetailJson where
  result : Option ResultJson
deriving Repr, DecidableEq

/-- Outcome of the network call in `get_place_info_from_place_id` plus `.json()`
decoding: `raised` when `requests.get` or the JSON decode raises, otherwise
the decoded body.  (The source never checks the status code here.) -/
inductive DetailOutcome where
  | raised (msg : String)
  | ok (body : DetailJson)
deriving Repr, DecidableEq

/-- Embeds `get_place_info_from_place_id`: a single detail-endpoint call for
the given `place_id`, no retry, faults propagate to the caller. -/
def get_place_info_from_place_id (detailApi : String → DetailOutcome)
    (place_id : String) : DetailOutcome :=
  detailApi place_id

/-- Outcome of the network call in `get_image_url_from_photo_preference`:
`raised` when `requests.get` raises, otherwise the resolved request URL
(`response.url`), which is the image-URL artifact. -/
inductive PhotoOutcome where
  | raised (msg : String)
  | ok (image_url : String)
deriving Repr, DecidableEq

/-- Embeds `get_image_url_from_photo_preference`: a single photo-endpoint
call for the given `photo_reference`. -/
def get_image_url_from_photo_preference
    (photoApi : String → PhotoOutcome) (photo_reference : String) :
    PhotoOutcome :=
  photoApi photo_reference

/-- The three lookup-service endpoints, as oracles from request key to
outcome. -/
structure Env where
  textApi : String → TextQueryOutcome
  detailApi : String → DetailOutcome
  photoApi : String → PhotoOutcome

/-- Result of running the body of the per-row `try` block: the row with the
fields assigned before any fault, the fault that escaped the body (if any),
and the arguments of the detail-endpoint and photo-endpoint calls issued. -/
structure RowTrace where
  row : Row
  fault : Option String
  detail_calls : List String
  photo_calls : List String
deriving Repr, DecidableEq

/-- The last statement group of the per-row `try` block: read
`result.photos[0]` (a missing `"photos"` key or an empty list raises at the
subscript) and call the photo endpoint; only on success assign `image_url`.
`row4` is the row with `place_id`, `map_url`, `latitude`, `longitude`
already assigned. -/
def imageStage (env : Env) (row4 : Row) (place_id : String)
    (result : ResultJson) : RowTrace :=
  match result.photos with
  | none => ⟨row4, some "KeyError: photos", [place_id], []⟩
  | some photos =>
    match photos with
    | [] => ⟨row4, some "IndexError: photos[0]", [place_id], []⟩
    | photo_reference :: _ =>
      match get_image_url_from_photo_preference env.photoApi
          photo_reference with
      | PhotoOutcome.raised msg =>
        ⟨row4, some msg, [place_id], [photo_reference]⟩
      | PhotoOutcome.ok image_url =>
        ⟨{ row4 with image_url := image_url }, none,
          [place_id], [photo_reference]⟩

/-- The coordinate statements of the per-row `try` block: assign `latitude`
from `result.geometry.location.lat`, then `longitude` from
`...location.lng`; a missing key raises at the corresponding subscript,
keeping the fields assigned so far.  `row2` is the row with `place_id` and
`map_url` already assigned. -/
def coordStage (env : Env) (row2 : Row) (place_id : String)
    (result : ResultJson) : RowTrace :=
  match result.geometry with
  | none => ⟨row2, some "KeyError: geometry", [place_id], []⟩
  | some geometry =>
    match geometry.location with
    | none => ⟨row2, some "KeyError: location", [place_id], []⟩
    | some location =>
      match location.lat with
      | none => ⟨row2, some "KeyError: lat", [place_id], []⟩
      | some lat =>
        match location.lng with
        | none =>
          ⟨{ row2 with latitude := lat }, some "KeyError: lng",
            [place_id], []⟩
        | some lng =>
          imageStage env { row2 with latitude := lat, longitude := lng }
            place_id result

/-- The statements of the per-row `try` block that consume the decoded
detail body: read `result` and `result.url` (a missing key raises), assign
`map_url`, then continue with the coordinate statements.  `row1` is the row
with `place_id` already assigned. -/
def detailStage (env : Env) (row1 : Row) (place_id : String)
    (body : DetailJson) : RowTrace :=
  match body.result with
  | none => ⟨row1, some "KeyError: result", [place_id], []⟩
  | some result =>
    match result.url with
    | none => ⟨row1, some "KeyError: url", [place_id], []⟩
    | some url =>
      coordStage env { row1 with map_url := url } place_id result

/-- The per-row `try` block after the resolution step: store
`str(resolver result)` into `place_id`, fetch the detail body (a raised
fault stops the body, keeping `place_id`), and continue. -/
def afterResolve (env : Env) (row0 : Row) (resolved : Option String) :
    RowTrace :=
  match get_place_info_from_place_id env.detailApi (pyStr resolved) with
  | DetailOutcome.raised msg =>
    ⟨{ row0 with place_id := pyStr resolved }, some msg, [pyStr resolved], []⟩
  | DetailOutcome.ok body =>
    detailStage env { row0 with place_id := pyStr resolved }
      (pyStr resolved) body

/-- Embeds the body of the per-row `try` block in `main`, statement by
statement: resolve `place_id` and store `str(...)` of it, fetch the detail
body, then assign `map_url`, `latitude`, `longitude`, then derive
`image_url` from `result.photos[0]`.  A raised fault stops the body,
keeping the fields assigned so far (pandas `at` assignments mutate in
place and are not rolled back). -/
def enrichRowBody (env : Env) (row0 : Row) : RowTrace :=
  match (get_place_id_from_text_query env.textApi row0).1 with
  | Except.error msg => ⟨row0, some msg, [], []⟩
  | Except.ok resolved => afterResolve env row0 resolved

/-- One iteration of the enrichment loop in `main`: the `try` body wrapped in the
per-row `except`, which logs the fault and keeps the row with whatever
fields were assigned before the fault.  Total: no fault escapes the row. -/
def processRow (env : Env) (row0 : Row) : Row :=
  (enrichRowBody env row0).row

/-- The whole enrichment phase of `main`: initialise the derived and output
columns for every row, then enrich each row in input order, one output row
per input row. -/
def enrich (env : Env) (input : List InputRow) : List Row :=
  (input.map initRow).map (processRow env)

/-- The columns of the enriched dataframe when the intermediate spreadsheet
(`output_file_selesai_belum.xlsx`) is written: the five input columns plus
the derived and output columns added in `main`, in pandas column order. -/
def enriched_columns : List String :=
  ["id", "province", "city", "name", "address",
   "alamat_parameter", "place_id", "map_url", "latitude", "longitude",
   "image_url"]

/-- The working columns `main` drops before persistence
(`columns_to_delete`). -/
def columns_to_delete : List String := ["alamat_parameter", "place_id"]

/-- Embeds `data_frame.drop(columns=...)`: removes the named columns, keeping all
others in order. -/
def dropColumns (cols toDelete : List String) : List String :=
  cols.filter (fun c => !(toDelete.contains c))

/-- The column shape of the dataframe that is appended to the database and
written to the final spreadsheet (`list-provider-end.xlsx`). -/
def persisted_columns : List String :=
  dropColumns enriched_columns columns_to_delete

/-- Outcome of one database operation (`psycopg2.connect`,
`connection.cursor()`, the create-table statement, or the bulk append). -/
inductive DbOutcome where
  | raised (msg : String)
  | ok
deriving Repr, DecidableEq

/-- Oracle for the four database operations attempted in the `try` block of
`main`, in program order. -/
structure DbEnv where
  connect : DbOutcome
  cursor : DbOutcome
  create_table : DbOutcome
  insert : DbOutcome
deriving Repr, DecidableEq

/-- Observable outcome of the batch tail of `main` (everything after the
enrichment loop): whether each spreadsheet was written, whether the bulk
append ran, which database fault the `except` block logged, and the fault
(if any) that escaped `main` uncaught. -/
structure BatchTrace where
  wrote_intermediate : Bool
  inserted : Bool
  db_error_logged : Option String
  uncaught : Option String
  wrote_final : Bool
deriving Repr, DecidableEq

/-- Embeds the batch tail of `main`: write the intermediate spreadsheet,
drop the working columns, then `try` connect / cursor / create-table /
insert, `except` log the fault, `finally` run `if cursor: cursor.close()`
and `if connection: connection.close()`, then write the final spreadsheet.
The locals `connection` and `cursor` are bound only by the assignments in
the `try` block (`none` models an unbound local); evaluating `if cursor:`
while `cursor` is unbound raises an UnboundLocalError inside `finally`,
which escapes `main` and skips the final spreadsheet write. -/
def batchTail (db : DbEnv) : BatchTrace :=
  let bindings : Option Unit × Option Unit × Bool × Option String :=
    match db.connect with
    | DbOutcome.raised msg => (none, none, false, some msg)
    | DbOutcome.ok =>
      match db.cursor with
      | DbOutcome.raised msg => (some (), none, false, some msg)
      | DbOutcome.ok =>
        match db.create_table with
        | DbOutcome.raised msg => (some (), some (), false, some msg)
        | DbOutcome.ok =>
          match db.insert with
          | DbOutcome.raised msg => (some (), some (), false, some msg)
          | DbOutcome.ok => (some (), some (), true, none)
  let connection := bindings.1
  let cursor := bindings.2.1
  let inserted := bindings.2.2.1
  let db_error_logged := bindings.2.2.2
  match cursor with
  | none =>
    { wrote_intermediate := true, inserted := inserted,
      db_error_logged := db_error_logged,
      uncaught := some "UnboundLocalError: cursor", wrote_final := false }
  | some _ =>
    match connection with
    | none =>
      { wrote_intermediate := true, inserted := inserted,
        db_error_logged := db_error_logged,
        uncaught := some "UnboundLocalError: connection", wrote_final := false }
    | some _ =>
      { wrote_intermediate := true, inserted := inserted,
        db_error_logged := db_error_logged,
        uncaught := none, wrote_final := true }

/-! Helper lemmas. -/

/-- The query texts the retry ladder would use starting at `retry_count`
for `remaining` further attempts. -/
def plannedQueries (row_value : Row) : Nat → Nat → List String
  | _, 0 => []
  | retry_count, remaining + 1 =>
    queryFor row_value retry_count ::
      plannedQueries row_value (retry_count + 1) remaining

/-- The log of issued lookup calls is always an initial segment of the
planned query ladder. -/
theorem resolveAux_log_planned (textApi : String → TextQueryOutcome)
    (row_value : Row) :
    ∀ remaining retry_count,
      (resolveAux textApi row_value retry_count remaining).2 <+:
        plannedQueries row_value retry_count remaining := by
  intro remaining
  induction remaining with
  | zero =>
    intro retry_count
    exact ⟨[], rfl⟩
  | succ n ih =>
    intro retry_count
    cases htc : textApi (queryFor row_value retry_count) with
    | raised msg =>
      refine ⟨plannedQueries row_value (retry_count + 1) n, ?_⟩
      simp only [resolveAux, get_place_api, htc, plannedQueries]
      rfl
    | ok status payload =>
      by_cases hs : status = 200
      · subst hs
        cases payload with
        | error msg =>
          refine ⟨plannedQueries row_value (retry_count + 1) n, ?_⟩
          simp only [resolveAux, get_place_api, htc, plannedQueries]
          simp only [if_true]
          rfl
        | ok candidates =>
          cases hq : firstQualifying candidates with
          | some place_id =>
            refine ⟨plannedQueries row_value (retry_count + 1) n, ?_⟩
            simp only [resolveAux, get_place_api, htc, plannedQueries, hq]
            simp only [if_true]
            rfl
          | none =>
            obtain ⟨t, ht⟩ := ih (retry_count + 1)
            refine ⟨t, ?_⟩
            simp only [resolveAux, get_place_api, htc, plannedQueries, hq]
            simp only [if_true]
            rw [List.cons_append, ht]
      · obtain ⟨t, ht⟩ := ih (retry_count + 1)
        refine ⟨t, ?_⟩
        simp only [resolveAux, get_place_api, htc, plannedQueries]
        rw [if_neg hs]
        rw [List.cons_append, ht]

/-- `firstQualifying` is the first candidate in list order whose types
satisfy the classifier, phrased with `List.find?`. -/
theorem firstQualifying_eq_find (candidates : List Candidate) :
    firstQualifying candidates =
      (candidates.find? (fun c => check_type_in_response c.types)).map
        Candidate.place_id := by
  induction candidates with
  | nil => rfl
  | cons c rest ih =>
    by_cases hc : check_type_in_response c.types
    · simp [firstQualifying, List.find?, hc]
    · simp [firstQualifying, List.find?, hc, ih]

/-- The kind of response that advances the retry counter: the call returned
(did not raise) and either the status is not 200, or the candidate payload
decoded but contained no qualifying candidate. -/
def attemptNoQualify : TextQueryOutcome → Bool
  | TextQueryOutcome.raised _ => false
  | TextQueryOutcome.ok status payload =>
    if status = 200 then
      match payload with
      | Except.error _ => false
      | Except.ok candidates => (firstQualifying candidates).isNone
    else true

/-- One non-qualifying, non-raising attempt advances the loop to the next
retry, prepending its query text to the call log. -/
theorem resolveAux_step_noQualify (textApi : String → TextQueryOutcome)
    (row_value : Row) (retry_count remaining : Nat)
    (h : attemptNoQualify (textApi (queryFor row_value retry_count)) = true) :
    resolveAux textApi row_value retry_count (remaining + 1) =
      ((resolveAux textApi row_value (retry_count + 1) remaining).1,
        queryFor row_value retry_count ::
          (resolveAux textApi row_value (retry_count + 1) remaining).2) := by
  cases htc : textApi (queryFor row_value retry_count) with
  | raised msg => simp [attemptNoQualify, htc] at h
  | ok status payload =>
    by_cases hs : status = 200
    · subst hs
      cases payload with
      | error msg => simp [attemptNoQualify, htc] at h
      | ok candidates =>
        rw [htc] at h
        simp only [attemptNoQualify] at h
        simp only [if_true] at h
        simp only [resolveAux, get_place_api, htc]
        simp only [if_true]
        rw [Option.isNone_iff_eq_none] at h
        rw [h]
    · simp only [resolveAux, get_place_api, htc]
      rw [if_neg hs]

/-- A raising first call aborts the loop with the fault after one attempt. -/
theorem resolveAux_step_raised (textApi : String → TextQueryOutcome)
    (row_value : Row) (retry_count remaining : Nat) (msg : String)
    (h : textApi (queryFor row_value retry_count) =
      TextQueryOutcome.raised msg) :
    resolveAux textApi row_value retry_count (remaining + 1) =
      (Except.error msg, [queryFor row_value retry_count]) := by
  simp only [resolveAux, get_place_api, h]

/-- The image stage never touches the `place_id` field and issues exactly
the one detail call recorded before it. -/
theorem imageStage_place_id (env : Env) (row4 : Row) (place_id : String)
    (result : ResultJson) :
    (imageStage env row4 place_id result).row.place_id = row4.place_id ∧
    (imageStage env row4 place_id result).detail_calls = [place_id] := by
  unfold imageStage
  repeat' split
  all_goals exact ⟨rfl, rfl⟩

/-- The coordinate stage never touches the `place_id` field and issues
exactly the one detail call recorded before it. -/
theorem coordStage_place_id (env : Env) (row2 : Row) (place_id : String)
    (result : ResultJson) :
    (coordStage env row2 place_id result).row.place_id = row2.place_id ∧
    (coordStage env row2 place_id result).detail_calls = [place_id] := by
  unfold coordStage
  repeat' split
  all_goals first
    | exact ⟨rfl, rfl⟩
    | exact (imageStage_place_id env _ place_id result)

/-- The detail-consuming stage never touches the `place_id` field and
issues exactly the one detail call recorded before it. -/
theorem detailStage_place_id (env : Env) (row1 : Row) (place_id : String)
    (body : DetailJson) :
    (detailStage env row1 place_id body).row.place_id = row1.place_id ∧
    (detailStage env row1 place_id body).detail_calls = [place_id] := by
  unfold detailStage
  repeat' split
  all_goals first
    | exact ⟨rfl, rfl⟩
    | exact (coordStage_place_id env _ place_id _)

/-- Whatever happens after the resolution step, the `place_id` field of the
resulting row is the stringified resolver result, and exactly one
detail-endpoint call is issued, with that string as its argument. -/
theorem enrichRowBody_place_id (env : Env) (row0 : Row)
    (resolved : Option String)
    (hres : (get_place_id_from_text_query env.textApi row0).1 =
      Except.ok resolved) :
    (enrichRowBody env row0).row.place_id = pyStr resolved ∧
    (enrichRowBody env row0).detail_calls = [pyStr resolved] := by
  have hbody : enrichRowBody env row0 = afterResolve env row0 resolved := by
    unfold enrichRowBody
    rw [hres]
  rw [hbody]
  unfold afterResolve
  cases get_place_info_from_place_id env.detailApi (pyStr resolved) with
  | raised msg => exact ⟨rfl, rfl⟩
  | ok body => exact detailStage_place_id env _ (pyStr resolved) body

/-! Claim theorems. -/

/-- C1, counterexample: the claim says labels are matched by substring
containment, so that the label `"dentist_office"` makes the classifier
return `true`; in the source `type_option in store_type` is list
membership, and the classifier returns `false` on `["dentist_office"]`. -/
theorem check_type_substring_counterexample :
    check_type_in_response ["dentist_office"] = false := by decide

/-- C1 (amended): the Type Classifier returns `true` iff some label of the
collection is exactly equal to one of `{health, hospital, pharmacy,
dentist}` (list membership, not substring containment), and it returns
`false` for an empty label collection. -/
theorem check_type_in_response_membership (store_type : List String) :
    (check_type_in_response store_type = true ↔
      ∃ l, l ∈ store_type ∧ l ∈ type_options) ∧
    check_type_in_response [] = false := by
  constructor
  · constructor
    · intro h
      rcases List.any_eq_true.mp h with ⟨t, ht, hc⟩
      exact ⟨t, (List.elem_iff).mp hc, ht⟩
    · rintro ⟨l, hl, hlo⟩
      exact List.any_eq_true.mpr ⟨l, hlo, (List.elem_iff).mpr hl⟩
  · decide

/-- C1 witness: a collection holding the exact label `"pharmacy"` makes the
classifier return `true`. -/
theorem check_type_in_response_membership_witness :
    check_type_in_response ["foo", "pharmacy"] = true :=
  (check_type_in_response_membership ["foo", "pharmacy"]).1.mpr
    ⟨"pharmacy", by simp, by simp [type_options]⟩

/-! Concrete fixtures for witnesses and counterexamples. -/

/-- A concrete input row. -/
def inputW : InputRow :=
  { id := 1, province := "DKI Jakarta", city := "Jakarta",
    name := "Klinik Sehat", address := "Jl. Mawar 1" }

/-- A concrete qualifying candidate. -/
def candW : Candidate := { place_id := "PID1", types := ["health"] }

/-- A text-query oracle whose response to the first-attempt query of `inputW`
holds one qualifying candidate; all other queries return empty candidate
lists. -/
def textApiAccept : String → TextQueryOutcome := fun value =>
  if value = "Klinik Sehat, Jl. Mawar 1, Jakarta" then
    TextQueryOutcome.ok 200 (Except.ok [candW])
  else TextQueryOutcome.ok 200 (Except.ok [])

/-- A text-query oracle that always returns status 200 with an empty
candidate list. -/
def textApiEmpty : String → TextQueryOutcome := fun _ =>
  TextQueryOutcome.ok 200 (Except.ok [])

/-- A text-query oracle whose calls always raise a network error. -/
def textApiRaise : String → TextQueryOutcome := fun _ =>
  TextQueryOutcome.raised "ConnectionError"

/-- A detail oracle that always raises a timeout. -/
def detailApiRaise : String → DetailOutcome := fun _ =>
  DetailOutcome.raised "ReadTimeout"

/-- A detail oracle returning url and geometry but an empty photo list. -/
def detailApiNoPhotos : String → DetailOutcome := fun _ =>
  DetailOutcome.ok ⟨some ⟨some "https://maps.google.com/?cid=42",
    some ⟨some ⟨some "-6.2", some "106.8"⟩⟩, some []⟩⟩

/-- A photo oracle returning a resolved request URL. -/
def photoApiOk : String → PhotoOutcome := fun photo_reference =>
  PhotoOutcome.ok ("https://lh3.googleusercontent.com/" ++ photo_reference)

/-- Environment in which every text query returns no candidates. -/
def envExhaust : Env := ⟨textApiEmpty, detailApiRaise, photoApiOk⟩

/-- Environment in which every text query raises a network error. -/
def envRaise : Env := ⟨textApiRaise, detailApiRaise, photoApiOk⟩

/-- Environment in which resolution succeeds and the detail fetch raises. -/
def envDetailRaise : Env := ⟨textApiAccept, detailApiRaise, photoApiOk⟩

/-- Environment in which resolution and the detail fetch succeed but the
photo-reference list is empty. -/
def envNoPhotos : Env := ⟨textApiAccept, detailApiNoPhotos, photoApiOk⟩

/-- C2: the Candidate Resolver issues at most 3 lookup attempts, whose
query texts are, in order, the precomputed `alamat_parameter`,
`name + ", " + city`, and `address` alone; within a status-200 response it
accepts the first candidate in list order whose types satisfy the Type
Classifier; and when attempt 1 yields a qualifying candidate the resolver
returns it after exactly one lookup call. -/
theorem resolver_attempt_ladder (textApi : String → TextQueryOutcome)
    (row_value : Row) :
    (get_place_id_from_text_query textApi row_value).2 <+:
      [row_value.alamat_parameter,
        row_value.name ++ ", " ++ row_value.city,
        row_value.address] ∧
    (∀ candidates : List Candidate,
      firstQualifying candidates =
        (candidates.find? (fun c => check_type_in_response c.types)).map
          Candidate.place_id) ∧
    (∀ candidates place_id,
      textApi row_value.alamat_parameter =
        TextQueryOutcome.ok 200 (Except.ok candidates) →
      firstQualifying candidates = some place_id →
      get_place_id_from_text_query textApi row_value =
        (Except.ok (some place_id), [row_value.alamat_parameter])) := by
  refine ⟨?_, firstQualifying_eq_find, ?_⟩
  · have h := resolveAux_log_planned textApi row_value 3 0
    have hp : plannedQueries row_value 0 3 =
        [row_value.alamat_parameter,
          row_value.name ++ ", " ++ row_value.city,
          row_value.address] := rfl
    rw [hp] at h
    exact h
  · intro candidates place_id h1 h2
    have hq0 : queryFor row_value 0 = row_value.alamat_parameter := rfl
    show resolveAux textApi row_value 0 3 = _
    simp only [resolveAux, get_place_api, hq0, h1]
    simp only [if_true]
    rw [h2]

/-- C2 witness: at a concrete oracle whose first attempt returns one
qualifying candidate, the resolver returns its identifier with a
single-entry call log. -/
theorem resolver_attempt_ladder_witness :
    get_place_id_from_text_query textApiAccept (initRow inputW) =
      (Except.ok (some "PID1"), [(initRow inputW).alamat_parameter]) :=
  (resolver_attempt_ladder textApiAccept (initRow inputW)).2.2
    [candW] "PID1" rfl rfl

/-- C3: when all three attempts return responses with no qualifying
candidate, the resolver makes exactly 3 lookup attempts (the whole query
ladder), returns the unresolved sentinel `none`, and downstream the
candidate-identifier field of the row stores the literal string `"None"`. -/
theorem resolver_exhaustion (env : Env) (r : InputRow)
    (h : ∀ k, k < 3 →
      attemptNoQualify (env.textApi (queryFor (initRow r) k)) = true) :
    get_place_id_from_text_query env.textApi (initRow r) =
      (Except.ok none, resolverQueries (initRow r)) ∧
    (resolverQueries (initRow r)).length = 3 ∧
    (enrichRowBody env (initRow r)).row.place_id = "None" := by
  have h0 : resolveAux env.textApi (initRow r) 0 3 =
      ((resolveAux env.textApi (initRow r) 1 2).1,
        queryFor (initRow r) 0 ::
          (resolveAux env.textApi (initRow r) 1 2).2) :=
    resolveAux_step_noQualify env.textApi (initRow r) 0 2 (h 0 (by norm_num))
  have h1 : resolveAux env.textApi (initRow r) 1 2 =
      ((resolveAux env.textApi (initRow r) 2 1).1,
        queryFor (initRow r) 1 ::
          (resolveAux env.textApi (initRow r) 2 1).2) :=
    resolveAux_step_noQualify env.textApi (initRow r) 1 1 (h 1 (by norm_num))
  have h2 : resolveAux env.textApi (initRow r) 2 1 =
      ((resolveAux env.textApi (initRow r) 3 0).1,
        queryFor (initRow r) 2 ::
          (resolveAux env.textApi (initRow r) 3 0).2) :=
    resolveAux_step_noQualify env.textApi (initRow r) 2 0 (h 2 (by norm_num))
  have hres : get_place_id_from_text_query env.textApi (initRow r) =
      (Except.ok none, resolverQueries (initRow r)) := by
    show resolveAux env.textApi (initRow r) 0 3 = _
    rw [h0, h1, h2]
    rfl
  refine ⟨hres, rfl, ?_⟩
  exact (enrichRowBody_place_id env (initRow r) none (by rw [hres])).1

/-- C3 witness: at a concrete oracle that always answers 200 with an empty
candidate list, the resolver exhausts all three attempts and the row
stores `"None"`. -/
theorem resolver_exhaustion_witness :
    get_place_id_from_text_query envExhaust.textApi (initRow inputW) =
      (Except.ok none, resolverQueries (initRow inputW)) ∧
    (resolverQueries (initRow inputW)).length = 3 ∧
    (enrichRowBody envExhaust (initRow inputW)).row.place_id = "None" :=
  resolver_exhaustion envExhaust inputW (fun _ _ => rfl)

/-- C4, counterexample: a first lookup call that raises a network error is
not handled like "no qualifying candidate": the resolver stops after that
single attempt (call log of length 1, not 3) and the fault propagates out
of the resolver as an error instead of advancing the retry counter. -/
theorem resolver_fault_counterexample :
    (get_place_id_from_text_query textApiRaise (initRow inputW)).1 =
      Except.error "ConnectionError" ∧
    (get_place_id_from_text_query textApiRaise (initRow inputW)).2.length
      = 1 :=
  ⟨rfl, rfl⟩

/-- C4 (amended): a returned response that is non-200, or 200 with no
qualifying candidate, merely advances the retry counter; but a lookup call
that raises (network error, timeout, malformed payload) propagates out of
the resolver as a raised fault, which is then caught at the row boundary
by the per-row handler of the pipeline, leaving the row unchanged. -/
theorem resolver_fault_handling (env : Env) (row0 : Row) :
    (attemptNoQualify (env.textApi (queryFor row0 0)) = true →
      get_place_id_from_text_query env.textApi row0 =
        ((resolveAux env.textApi row0 1 2).1,
          queryFor row0 0 :: (resolveAux env.textApi row0 1 2).2)) ∧
    (∀ msg, env.textApi (queryFor row0 0) = TextQueryOutcome.raised msg →
      get_place_id_from_text_query env.textApi row0 =
        (Except.error msg, [queryFor row0 0])) ∧
    (∀ msg, (get_place_id_from_text_query env.textApi row0).1 =
        Except.error msg →
      enrichRowBody env row0 = ⟨row0, some msg, [], []⟩) := by
  refine ⟨?_, ?_, ?_⟩
  · intro h
    exact resolveAux_step_noQualify env.textApi row0 0 2 h
  · intro msg h
    exact resolveAux_step_raised env.textApi row0 0 2 msg h
  · intro msg h
    unfold enrichRowBody
    rw [h]

/-- C4 witness: at a concrete oracle whose calls raise a network error, the
fault is caught at the row boundary with the row left unchanged. -/
theorem resolver_fault_handling_witness :
    enrichRowBody envRaise (initRow inputW) =
      ⟨initRow inputW, some "ConnectionError", [], []⟩ :=
  (resolver_fault_handling envRaise (initRow inputW)).2.2
    "ConnectionError" rfl

/-- C5: for every input table and every oracle behaviour, the Enrichment
Pipeline produces exactly one enriched row per input row, in input order:
the output has the length of the input and its i-th entry is the per-row
enrichment of the i-th input row (the per-row catch makes row processing
total, so no row is dropped, added, or reordered). -/
theorem pipeline_one_row_per_input (env : Env) (input : List InputRow) :
    (enrich env input).length = input.length ∧
    ∀ i : Nat, (enrich env input)[i]? =
      (input[i]?).map (fun r => processRow env (initRow r)) := by
  constructor
  · simp [enrich]
  · intro i
    simp only [enrich, List.getElem?_map]
    cases input[i]? <;> rfl

/-- C9: a row whose resolution is exhausted is not short-circuited: the
pipeline still issues exactly one detail-fetch call, with the literal
string `"None"` as the place identifier. -/
theorem exhausted_row_still_fetches_detail (env : Env) (r : InputRow)
    (hres : (get_place_id_from_text_query env.textApi (initRow r)).1 =
      Except.ok none) :
    (enrichRowBody env (initRow r)).detail_calls = ["None"] :=
  (enrichRowBody_place_id env (initRow r) none hres).2

/-- C9 witness: at a concrete oracle that always answers with empty
candidate lists, the detail fetch of the row is issued with `"None"`. -/
theorem exhausted_row_still_fetches_detail_witness :
    (enrichRowBody envExhaust (initRow inputW)).detail_calls = ["None"] :=
  exhausted_row_still_fetches_detail envExhaust inputW rfl

/-- C6: a row whose resolution succeeds but whose detail fetch raises still
appears in the output with `place_id` holding the resolved identifier and
`map_url`, `latitude`, `longitude`, `image_url` all the empty string; and
more generally a fault at any later stage keeps the fields assigned by the
earlier stages and leaves the later-stage fields at their empty-string
defaults. -/
theorem row_fault_keeps_earlier_fields (env : Env) (r : InputRow) :
    (∀ place_id msg,
      (get_place_id_from_text_query env.textApi (initRow r)).1 =
        Except.ok (some place_id) →
      env.detailApi place_id = DetailOutcome.raised msg →
      processRow env (initRow r) = { initRow r with place_id := place_id } ∧
      (processRow env (initRow r)).map_url = "" ∧
      (processRow env (initRow r)).latitude = "" ∧
      (processRow env (initRow r)).longitude = "" ∧
      (processRow env (initRow r)).image_url = "") ∧
    (∀ msg,
      (get_place_id_from_text_query env.textApi (initRow r)).1 =
        Except.error msg →
      processRow env (initRow r) = initRow r) ∧
    (∀ resolved body,
      (get_place_id_from_text_query env.textApi (initRow r)).1 =
        Except.ok resolved →
      env.detailApi (pyStr resolved) = DetailOutcome.ok body →
      (body.result = none ∨
        (∃ result, body.result = some result ∧ result.url = none)) →
      processRow env (initRow r) =
        { initRow r with place_id := pyStr resolved }) ∧
    (∀ resolved result url,
      (get_place_id_from_text_query env.textApi (initRow r)).1 =
        Except.ok resolved →
      env.detailApi (pyStr resolved) = DetailOutcome.ok ⟨some result⟩ →
      result.url = some url →
      (result.geometry = none ∨
        (∃ g, result.geometry = some g ∧ g.location = none) ∨
        (∃ g loc, result.geometry = some g ∧ g.location = some loc ∧
          loc.lat = none)) →
      processRow env (initRow r) =
        { initRow r with place_id := pyStr resolved, map_url := url }) ∧
    (∀ resolved result url g loc lat,
      (get_place_id_from_text_query env.textApi (initRow r)).1 =
        Except.ok resolved →
      env.detailApi (pyStr resolved) = DetailOutcome.ok ⟨some result⟩ →
      result.url = some url → result.geometry = some g →
      g.location = some loc → loc.lat = some lat → loc.lng = none →
      processRow env (initRow r) =
        { initRow r with
            place_id := pyStr resolved, map_url := url,
            latitude := lat }) ∧
    (∀ resolved result url g loc lat lng,
      (get_place_id_from_text_query env.textApi (initRow r)).1 =
        Except.ok resolved →
      env.detailApi (pyStr resolved) = DetailOutcome.ok ⟨some result⟩ →
      result.url = some url → result.geometry = some g →
      g.location = some loc → loc.lat = some lat → loc.lng = some lng →
      (result.photos = none ∨ result.photos = some [] ∨
        (∃ p ps msg, result.photos = some (p :: ps) ∧
          env.photoApi p = PhotoOutcome.raised msg)) →
      processRow env (initRow r) =
        { initRow r with
            place_id := pyStr resolved, map_url := url,
            latitude := lat, longitude := lng }) := by
  refine ⟨?_, ?_, ?_, ?_, ?_, ?_⟩
  · intro place_id msg hres hdet
    have heq : processRow env (initRow r) =
        { initRow r with place_id := place_id } := by
      unfold processRow enrichRowBody
      rw [hres]
      show (afterResolve env (initRow r) (some place_id)).row = _
      unfold afterResolve
      rw [show get_place_info_from_place_id env.detailApi
        (pyStr (some place_id)) = DetailOutcome.raised msg from hdet]
      rfl
    refine ⟨heq, ?_, ?_, ?_, ?_⟩ <;> (rw [heq]; simp [initRow])
  · intro msg hres
    unfold processRow enrichRowBody
    rw [hres]
  · intro resolved body hres hdet hbad
    unfold processRow enrichRowBody
    rw [hres]
    show (afterResolve env (initRow r) resolved).row = _
    unfold afterResolve
    rw [show get_place_info_from_place_id env.detailApi (pyStr resolved) =
      DetailOutcome.ok body from hdet]
    show (detailStage env { initRow r with place_id := pyStr resolved }
      (pyStr resolved) body).row = _
    rcases hbad with hnone | ⟨result, hsome, hurl⟩
    · simp only [detailStage, hnone]
    · simp only [detailStage, hsome, hurl]
  · intro resolved result url hres hdet hurl hbad
    unfold processRow enrichRowBody
    rw [hres]
    show (afterResolve env (initRow r) resolved).row = _
    unfold afterResolve
    rw [show get_place_info_from_place_id env.detailApi (pyStr resolved) =
      DetailOutcome.ok ⟨some result⟩ from hdet]
    show (detailStage env { initRow r with place_id := pyStr resolved }
      (pyStr resolved) ⟨some result⟩).row = _
    simp only [detailStage, hurl]
    rcases hbad with hg | ⟨g, hg, hl⟩ | ⟨g, loc, hg, hl, hlat⟩
    · simp only [coordStage, hg]
    · simp only [coordStage, hg, hl]
    · simp only [coordStage, hg, hl, hlat]
  · intro resolved result url g loc lat hres hdet hurl hg hl hlat hlng
    unfold processRow enrichRowBody
    rw [hres]
    show (afterResolve env (initRow r) resolved).row = _
    unfold afterResolve
    rw [show get_place_info_from_place_id env.detailApi (pyStr resolved) =
      DetailOutcome.ok ⟨some result⟩ from hdet]
    show (detailStage env { initRow r with place_id := pyStr resolved }
      (pyStr resolved) ⟨some result⟩).row = _
    simp only [detailStage, hurl]
    simp only [coordStage, hg, hl, hlat, hlng]
  · intro resolved result url g loc lat lng hres hdet hurl hg hl hlat hlng
      hbad
    unfold processRow enrichRowBody
    rw [hres]
    show (afterResolve env (initRow r) resolved).row = _
    unfold afterResolve
    rw [show get_place_info_from_place_id env.detailApi (pyStr resolved) =
      DetailOutcome.ok ⟨some result⟩ from hdet]
    show (detailStage env { initRow r with place_id := pyStr resolved }
      (pyStr resolved) ⟨some result⟩).row = _
    simp only [detailStage, hurl]
    simp only [coordStage, hg, hl, hlat, hlng]
    rcases hbad with hp | hp | ⟨p, ps, msg, hp, hraise⟩
    · simp only [imageStage, hp]
    · simp only [imageStage, hp]
    · simp only [imageStage, hp, get_image_url_from_photo_preference, hraise]

/-- C6 witness: at a concrete oracle where resolution yields `"PID1"` and
the detail fetch raises, the output row keeps `place_id` and has the four
later fields empty. -/
theorem row_fault_keeps_earlier_fields_witness :
    processRow envDetailRaise (initRow inputW) =
      { initRow inputW with place_id := "PID1" } ∧
    (processRow envDetailRaise (initRow inputW)).map_url = "" ∧
    (processRow envDetailRaise (initRow inputW)).latitude = "" ∧
    (processRow envDetailRaise (initRow inputW)).longitude = "" ∧
    (processRow envDetailRaise (initRow inputW)).image_url = "" :=
  (row_fault_keeps_earlier_fields envDetailRaise inputW).1
    "PID1" "ReadTimeout" rfl rfl

/-- C10: when the detail fetch succeeds with a url and geometry but the
photo-reference list is empty, `map_url`, `latitude`, `longitude` are set
from the detail result while `image_url` stays the empty string: the
IndexError at `photos[0]` is raised only after the coordinate assignments,
which are not rolled back. -/
theorem empty_photo_list_keeps_coords (env : Env) (r : InputRow)
    (resolved : Option String) (url lat lng : String)
    (hres : (get_place_id_from_text_query env.textApi (initRow r)).1 =
      Except.ok resolved)
    (hdet : env.detailApi (pyStr resolved) =
      DetailOutcome.ok ⟨some ⟨some url,
        some ⟨some ⟨some lat, some lng⟩⟩, some []⟩⟩) :
    processRow env (initRow r) =
      { initRow r with
          place_id := pyStr resolved, map_url := url,
          latitude := lat, longitude := lng } ∧
    (processRow env (initRow r)).image_url = "" ∧
    (enrichRowBody env (initRow r)).fault = some "IndexError: photos[0]" := by
  have henrich : enrichRowBody env (initRow r) =
      ⟨{ initRow r with
            place_id := pyStr resolved, map_url := url,
            latitude := lat, longitude := lng },
        some "IndexError: photos[0]", [pyStr resolved], []⟩ := by
    unfold enrichRowBody
    rw [hres]
    show afterResolve env (initRow r) resolved = _
    unfold afterResolve
    rw [show get_place_info_from_place_id env.detailApi (pyStr resolved) =
      DetailOutcome.ok ⟨some ⟨some url,
        some ⟨some ⟨some lat, some lng⟩⟩, some []⟩⟩ from hdet]
    rfl
  have hrow : processRow env (initRow r) =
      { initRow r with
          place_id := pyStr resolved, map_url := url,
          latitude := lat, longitude := lng } := by
    show (enrichRowBody env (initRow r)).row = _
    rw [henrich]
  refine ⟨hrow, ?_, ?_⟩
  · rw [hrow]
    simp [initRow]
  · rw [henrich]

/-- C10 witness: at a concrete oracle returning url, coordinates, and an
empty photo list, the coordinates stay assigned and `image_url` is empty. -/
theorem empty_photo_list_keeps_coords_witness :
    processRow envNoPhotos (initRow inputW) =
      { initRow inputW with
          place_id := "PID1",
          map_url := "https://maps.google.com/?cid=42",
          latitude := "-6.2", longitude := "106.8" } ∧
    (processRow envNoPhotos (initRow inputW)).image_url = "" ∧
    (enrichRowBody envNoPhotos (initRow inputW)).fault =
      some "IndexError: photos[0]" :=
  empty_photo_list_keeps_coords envNoPhotos inputW (some "PID1")
    "https://maps.google.com/?cid=42" "-6.2" "106.8" rfl rfl

/-- C7: contrary to the claim, a database-*connection* failure is logged by
the except block but then crashes the process inside the finally block —
the local `cursor` is unbound there, so `if cursor:` raises — and the
final spreadsheet is not written; a failing create-table statement or a
failing append, by contrast, leaves the final spreadsheet written. -/
theorem db_connect_failure_skips_final_write :
    batchTail ⟨DbOutcome.raised "connection refused", DbOutcome.ok,
        DbOutcome.ok, DbOutcome.ok⟩ =
      ⟨true, false, some "connection refused",
        some "UnboundLocalError: cursor", false⟩ ∧
    batchTail ⟨DbOutcome.ok, DbOutcome.ok,
        DbOutcome.raised "create failed", DbOutcome.ok⟩ =
      ⟨true, false, some "create failed", none, true⟩ ∧
    batchTail ⟨DbOutcome.ok, DbOutcome.ok, DbOutcome.ok,
        DbOutcome.raised "append failed"⟩ =
      ⟨true, false, some "append failed", none, true⟩ :=
  ⟨rfl, rfl, rfl⟩

/-- C8: the derived-query and candidate-identifier working columns are
dropped before the database append and before the final export: the
persisted column shape is exactly the enriched shape minus
`alamat_parameter` and `place_id`, with all other columns kept in order. -/
theorem working_columns_dropped :
    persisted_columns =
      ["id", "province", "city", "name", "address", "map_url", "latitude",
        "longitude", "image_url"] ∧
    "alamat_parameter" ∉ persisted_columns ∧
    "place_id" ∉ persisted_columns ∧
    "alamat_parameter" ∈ enriched_columns ∧
    "place_id" ∈ enriched_columns := by
  refine ⟨rfl, ?_, ?_, ?_, ?_⟩ <;> decide

end MapsData
